import Mathlib

/-!
Verification of the camera framing and pointer interaction core of the
campusvt 3D viewer.  The definitions below are a shallow embedding of the
JavaScript source: the `Scene3D` namespace embeds the optimized variant
(`src/unnamed/part_001`, the `Scene3D` object), and the `Standalone`
namespace embeds `src/viewer3d_standalone.js` / `src/campusvt-main/viewer3d.js`
(whose `autoFitModel`, `initializeControls` and `resetView` are identical).
Vector, spherical and look-at primitives mirror the Renderer Library
(three.js `Vector3`, `Spherical`, `Matrix4.lookAt`, `Euler`) exactly as the
embedded functions call them, including the `length() || 1` guard of
`Vector3.normalize` and the truthiness tests of the JavaScript code.
-/

noncomputable section

/-- Vectors with three real components, mirroring `THREE.Vector3`. -/
structure Vec3 where
  x : ℝ
  y : ℝ
  z : ℝ
deriving DecidableEq

namespace Vec3

/-- Componentwise sum, mirroring `Vector3.add`. -/
def add (a b : Vec3) : Vec3 := ⟨a.x + b.x, a.y + b.y, a.z + b.z⟩

/-- Componentwise difference, mirroring `Vector3.sub` / `subVectors`. -/
def sub (a b : Vec3) : Vec3 := ⟨a.x - b.x, a.y - b.y, a.z - b.z⟩

/-- Scalar multiple, mirroring `Vector3.multiplyScalar`. -/
def smul (c : ℝ) (v : Vec3) : Vec3 := ⟨c * v.x, c * v.y, c * v.z⟩

/-- Squared length, mirroring `Vector3.lengthSq`. -/
def lengthSq (v : Vec3) : ℝ := v.x * v.x + v.y * v.y + v.z * v.z

/-- Euclidean length, mirroring `Vector3.length`. -/
def length (v : Vec3) : ℝ := Real.sqrt v.lengthSq

/-- Cross product, mirroring `Vector3.crossVectors`. -/
def cross (a b : Vec3) : Vec3 :=
  ⟨a.y * b.z - a.z * b.y, a.z * b.x - a.x * b.z, a.x * b.y - a.y * b.x⟩

/-- Normalization as three.js implements it: `divideScalar(length() || 1)`,
so the zero vector is returned unchanged rather than producing NaN. -/
def normalizeJS (v : Vec3) : Vec3 :=
  smul (1 / (if v.length = 0 then 1 else v.length)) v

end Vec3

/-- Axis-aligned bounding box with min and max corners (`THREE.Box3`). -/
structure Box3 where
  lo : Vec3
  hi : Vec3

namespace Box3

/-- Size of the box, `Box3.getSize` for a non-empty box: `max - min`. -/
def size (b : Box3) : Vec3 :=
  ⟨b.hi.x - b.lo.x, b.hi.y - b.lo.y, b.hi.z - b.lo.z⟩

/-- Center of the box, `Box3.getCenter`: `(min + max) * 0.5`. -/
def center (b : Box3) : Vec3 :=
  ⟨(b.lo.x + b.hi.x) * 0.5, (b.lo.y + b.hi.y) * 0.5, (b.lo.z + b.hi.z) * 0.5⟩

end Box3

/-- Two-argument arctangent with the semantics of JavaScript `Math.atan2`
(range `(-pi, pi]`, sign conventions of the IEEE function on reals). -/
def atan2 (y x : ℝ) : ℝ :=
  if 0 < x then Real.arctan (y / x)
  else if x < 0 then
    (if 0 ≤ y then Real.arctan (y / x) + Real.pi else Real.arctan (y / x) - Real.pi)
  else
    (if 0 < y then Real.pi / 2 else if y < 0 then -(Real.pi / 2) else 0)

/-- Clamp of a value into `[lo, hi]`, mirroring `MathUtils.clamp`:
`Math.max(lo, Math.min(hi, v))`. -/
def clampR (v lo hi : ℝ) : ℝ := max lo (min hi v)

/-- Euler angles (order XYZ) produced by `Object3D.lookAt` for a camera:
`Matrix4.lookAt(eye, target, (0,1,0))` followed by
`Euler.setFromRotationMatrix` with order XYZ, as three.js implements them. -/
def lookAtEuler (eye target : Vec3) : Vec3 :=
  let up : Vec3 := ⟨0, 1, 0⟩
  let z1 : Vec3 := eye.sub target
  let z2 : Vec3 := if z1.lengthSq = 0 then ⟨z1.x, z1.y, 1⟩ else z1
  let z3 : Vec3 := z2.normalizeJS
  let x1 : Vec3 := up.cross z3
  let z4 : Vec3 :=
    if x1.lengthSq = 0 then
      (if |up.z| = 1 then (⟨z3.x + 0.0001, z3.y, z3.z⟩ : Vec3)
       else (⟨z3.x, z3.y, z3.z + 0.0001⟩ : Vec3)).normalizeJS
    else z3
  let x2 : Vec3 := if x1.lengthSq = 0 then up.cross z4 else x1
  let x3 : Vec3 := x2.normalizeJS
  let y1 : Vec3 := z4.cross x3
  let ey : ℝ := Real.arcsin (clampR z4.x (-1) 1)
  if |z4.x| < 0.9999999 then
    ⟨atan2 (-z4.y) z4.z, ey, atan2 (-y1.x) x3.x⟩
  else
    ⟨atan2 y1.z y1.y, ey, 0⟩

/-- Unit view direction of a camera with Euler rotation `e` (order XYZ):
`getWorldDirection` returns the normalized negated third column of the
rotation matrix, which is `(-sin ey, sin ex * cos ey, -(cos ex * cos ey))`. -/
def eulerDir (e : Vec3) : Vec3 :=
  Vec3.normalizeJS
    ⟨-Real.sin e.y, Real.sin e.x * Real.cos e.y, -(Real.cos e.x * Real.cos e.y)⟩

/-- Spherical radius of a position, `Spherical.setFromVector3`. -/
def sphericalRadiusOf (v : Vec3) : ℝ := v.length

/-- Spherical azimuth `theta` of a position, `Spherical.setFromVector3`:
zero for the zero vector, else `atan2(x, z)`. -/
def sphericalThetaOf (v : Vec3) : ℝ :=
  if v.length = 0 then 0 else atan2 v.x v.z

/-- Spherical polar angle `phi` of a position, `Spherical.setFromVector3`:
zero for the zero vector, else `acos(clamp(y / radius, -1, 1))`. -/
def sphericalPhiOf (v : Vec3) : ℝ :=
  if v.length = 0 then 0 else Real.arccos (clampR (v.y / v.length) (-1) 1)

/-- Cartesian position from spherical coordinates,
`Vector3.setFromSpherical`. -/
def setFromSpherical (radius phi theta : ℝ) : Vec3 :=
  let sinPhiRadius : ℝ := Real.sin phi * radius
  ⟨sinPhiRadius * Real.sin theta, Real.cos phi * radius, sinPhiRadius * Real.cos theta⟩

/-- Camera state of the part_001 viewer: position, Euler rotation (kept in
sync by `lookAt`), projection zoom factor, and field of view in degrees. -/
structure Camera3 where
  position : Vec3
  rotation : Vec3
  zoom : ℝ
  fov : ℝ

namespace Scene3D

/-- Sensitivity constants of `Scene3D.mouseControls.sensitivity`. -/
def rotationSensitivity : ℝ := 0.01

/-- Pan sensitivity from `Scene3D.mouseControls.sensitivity`. -/
def panSensitivity : ℝ := 0.002

/-- Minimum camera distance enforced by `Scene3D.zoomCamera`
(`const minDistance = 1.0`). -/
def zoomMinDistance : ℝ := 1

/-- Maximum camera distance enforced by `Scene3D.zoomCamera`
(`const maxDistance = 10.0`). -/
def zoomMaxDistance : ℝ := 10

/-- Minimum distance used by `Scene3D.fitModelToView`
(`const minDistance = 1.0`). -/
def fitMinDistance : ℝ := 1

/-- Maximum distance used by `Scene3D.fitModelToView`
(`const maxDistance = 10.0`). -/
def fitMaxDistance : ℝ := 10

/-- Camera-level pan, `Scene3D.panCamera`: translate along the camera's
local right axis by `-deltaX * sensitivity` and local up axis by
`deltaY * sensitivity`.  The right and up axes are columns 0 and 1 of the
rotation matrix built from the camera's XYZ Euler angles, exactly as
`Vector3.setFromMatrixColumn(camera.matrix, 0/1)` reads them. -/
def panCameraC (cam : Camera3) (deltaX deltaY : ℝ) : Camera3 :=
  let a := Real.cos cam.rotation.x
  let b := Real.sin cam.rotation.x
  let c := Real.cos cam.rotation.y
  let d := Real.sin cam.rotation.y
  let e := Real.cos cam.rotation.z
  let f := Real.sin cam.rotation.z
  let col0 : Vec3 := ⟨c * e, a * f + b * e * d, b * f - a * e * d⟩
  let col1 : Vec3 := ⟨-(c * f), a * e - b * f * d, b * e + a * f * d⟩
  let vector : Vec3 := Vec3.smul (-deltaX * panSensitivity) col0
  let vector2 : Vec3 := Vec3.smul (deltaY * panSensitivity) col1
  { cam with position := cam.position.add (vector.add vector2) }

/-- Camera-level orbit, `Scene3D.rotateCamera`: convert the position to
spherical coordinates around the origin, apply the deltas, clamp `phi` to
`[0.1, pi - 0.1]`, rebuild the Cartesian position and look at the origin. -/
def rotateCameraC (cam : Camera3) (deltaX deltaY : ℝ) : Camera3 :=
  let radius := sphericalRadiusOf cam.position
  let theta0 := sphericalThetaOf cam.position
  let phi0 := sphericalPhiOf cam.position
  let theta1 := theta0 - deltaX * rotationSensitivity
  let phi1 := phi0 + deltaY * rotationSensitivity
  let phi2 := max 0.1 (min (Real.pi - 0.1) phi1)
  let pos := setFromSpherical radius phi2 theta1
  { cam with position := pos, rotation := lookAtEuler pos ⟨0, 0, 0⟩ }

/-- Camera-level zoom, `Scene3D.zoomCamera`: move along the world view
direction by `delta`, then clamp the distance from the origin into
`[zoomMinDistance, zoomMaxDistance]` by renormalizing the position. -/
def zoomCameraC (cam : Camera3) (delta : ℝ) : Camera3 :=
  let direction := eulerDir cam.rotation
  let moved := cam.position.add (Vec3.smul delta direction)
  let distance := moved.length
  let pos :=
    if distance < zoomMinDistance then Vec3.smul zoomMinDistance moved.normalizeJS
    else if zoomMaxDistance < distance then Vec3.smul zoomMaxDistance moved.normalizeJS
    else moved
  { cam with position := pos }

/-- Camera-level framing, `Scene3D.fitModelToView`: compute the distance
needed to frame the box, scale by the 1.5 margin, clamp into `[1, 10]`,
place the camera at `center + (0, 0, cameraZ)` and look at the center. -/
def fitCameraZ (box : Box3) (fov : ℝ) : ℝ :=
  let size := box.size
  let maxDim := max size.x (max size.y size.z)
  let fovRad := fov * (Real.pi / 180)
  let cameraZ := |maxDim / 2 / Real.tan (fovRad / 2)|
  let cameraZ2 := cameraZ * 1.5
  max fitMinDistance (min fitMaxDistance cameraZ2)

/-- Camera placement performed by `Scene3D.fitModelToView`. -/
def fitModelToViewC (cam : Camera3) (box : Box3) : Camera3 :=
  let center := box.center
  let cameraZ := fitCameraZ box cam.fov
  let pos : Vec3 := ⟨center.x, center.y, center.z + cameraZ⟩
  { cam with position := pos, rotation := lookAtEuler pos center }

end Scene3D

/-- Screen point (`clientX`, `clientY`) of a touch or the mouse. -/
structure Point2 where
  x : ℝ
  y : ℝ
deriving DecidableEq

/-- Distance between two touch points as `Scene3D.onTouchStart` /
`onTouchMove` compute it: `sqrt((x2-x1)^2 + (y2-y1)^2)`. -/
def touchDist (t1 t2 : Point2) : ℝ :=
  Real.sqrt ((t2.x - t1.x) ^ 2 + (t2.y - t1.y) ^ 2)

/-- Midpoint of two touch points: `((x1+x2)/2, (y1+y2)/2)`. -/
def touchMid (t1 t2 : Point2) : Point2 :=
  ⟨(t1.x + t2.x) / 2, (t1.y + t2.y) / 2⟩

/-- Saved view snapshot (`Scene3D.savedView`): camera position, rotation
and zoom captured by `saveCurrentView`. -/
structure SavedView where
  position : Vec3
  rotation : Vec3
  zoom : ℝ

/-- Interaction-relevant state of the `Scene3D` viewer session. -/
structure Scene3DState where
  camera : Camera3
  isMouseDown : Bool
  lastPinchDistance : Option ℝ
  lastTwoFingerCenter : Option Point2
  savedView : Option SavedView

namespace Scene3D

/-- State-level pan. -/
def panCamera (st : Scene3DState) (deltaX deltaY : ℝ) : Scene3DState :=
  { st with camera := panCameraC st.camera deltaX deltaY }

/-- State-level orbit. -/
def rotateCamera (st : Scene3DState) (deltaX deltaY : ℝ) : Scene3DState :=
  { st with camera := rotateCameraC st.camera deltaX deltaY }

/-- State-level zoom. -/
def zoomCamera (st : Scene3DState) (delta : ℝ) : Scene3DState :=
  { st with camera := zoomCameraC st.camera delta }

/-- State-level framing. -/
def fitModelToView (st : Scene3DState) (box : Box3) : Scene3DState :=
  { st with camera := fitModelToViewC st.camera box }

/-- Snapshot the current camera pose, `Scene3D.saveCurrentView`. -/
def saveCurrentView (st : Scene3DState) : Scene3DState :=
  { st with savedView := some ⟨st.camera.position, st.camera.rotation, st.camera.zoom⟩ }

/-- Restore the saved pose, `Scene3D.resetView`: a guarded no-op when no
view has been saved (`if (!this.savedView) return`). -/
def resetView (st : Scene3DState) : Scene3DState :=
  match st.savedView with
  | none => st
  | some v =>
      { st with camera :=
          { st.camera with position := v.position, rotation := v.rotation, zoom := v.zoom } }

/-- Two-touch branch of `Scene3D.onTouchStart`: capture the pinch distance
and the two-finger midpoint as the baseline for the gesture. -/
def onTouchStart2 (st : Scene3DState) (t1 t2 : Point2) : Scene3DState :=
  { st with
      isMouseDown := false
      lastPinchDistance := some (touchDist t1 t2)
      lastTwoFingerCenter := some (touchMid t1 t2) }

/-- Two-touch branch of `Scene3D.onTouchMove`: the pinch / two-finger
rotate disambiguator.  The guard mirrors the JavaScript truthiness test
`if (lastPinchDistance && lastTwoFingerCenter)` (a stored distance of 0 is
falsy); the zoom gate is `|distanceDelta| > 0.5` on the 0.01-scaled
distance change, and the rotate gate is `centerMovement > 5 &&
centerMovement > distanceChange * 0.5`.  The stored baselines are updated
at the end in every case. -/
def onTouchMove2 (st : Scene3DState) (t1 t2 : Point2) : Scene3DState :=
  let pinchDistance := touchDist t1 t2
  let currentCenter := touchMid t1 t2
  let st1 :=
    match st.lastPinchDistance, st.lastTwoFingerCenter with
    | some lastD, some lastC =>
        if lastD = 0 then st
        else
          let distanceDelta := (pinchDistance - lastD) * 0.01
          let st2 := if 0.5 < |distanceDelta| then zoomCamera st distanceDelta else st
          let centerDeltaX := currentCenter.x - lastC.x
          let centerDeltaY := currentCenter.y - lastC.y
          let centerMovement :=
            Real.sqrt (centerDeltaX * centerDeltaX + centerDeltaY * centerDeltaY)
          let distanceChange := |pinchDistance - lastD|
          if 5 < centerMovement ∧ distanceChange * 0.5 < centerMovement then
            rotateCamera st2 centerDeltaX centerDeltaY
          else st2
    | _, _ => st
  { st1 with
      lastPinchDistance := some pinchDistance
      lastTwoFingerCenter := some currentCenter }

/-- `Scene3D.onTouchEnd`: release the mouse flag; discard the two-finger
baselines only when no touches remain on the screen. -/
def onTouchEnd (st : Scene3DState) (touches : List Point2) : Scene3DState :=
  let st1 := { st with isMouseDown := false }
  if touches.length = 0 then
    { st1 with lastPinchDistance := none, lastTwoFingerCenter := none }
  else st1

/-- Camera state built by `Scene3D.initCamera` from `AppConfig`: position
`(0, 0, 5)`, `lookAt(0, 0, 0)`, default zoom 1, fov 75 degrees. -/
def initCameraState : Camera3 :=
  ⟨⟨0, 0, 5⟩, lookAtEuler ⟨0, 0, 5⟩ ⟨0, 0, 0⟩, 1, 75⟩

/-- Scene state before the final `saveCurrentView` of `Scene3D.init`. -/
def preInitState : Scene3DState :=
  ⟨initCameraState, false, none, none, none⟩

/-- Scene state after `Scene3D.init`, which ends with `saveCurrentView`. -/
def initState : Scene3DState := saveCurrentView preInitState

/-- Camera operations available between a fit and a reset. -/
inductive CamOp where
  | pan (dx dy : ℝ)
  | rot (dx dy : ℝ)
  | zoom (delta : ℝ)
  | fit (box : Box3)

/-- Apply one camera operation to the scene state. -/
def applyOp (st : Scene3DState) (op : CamOp) : Scene3DState :=
  match op with
  | CamOp.pan dx dy => panCamera st dx dy
  | CamOp.rot dx dy => rotateCamera st dx dy
  | CamOp.zoom d => zoomCamera st d
  | CamOp.fit box => fitModelToView st box

/-- Apply a sequence of camera operations. -/
def applyOps (st : Scene3DState) (ops : List CamOp) : Scene3DState :=
  ops.foldl applyOp st

/-- Apply a sequence of zoom deltas. -/
def applyZooms (st : Scene3DState) (ds : List ℝ) : Scene3DState :=
  ds.foldl zoomCamera st

/-- Apply a sequence of orbit deltas. -/
def applyRotates (st : Scene3DState) (ds : List (ℝ × ℝ)) : Scene3DState :=
  ds.foldl (fun s d => rotateCamera s d.1 d.2) st

end Scene3D

namespace Standalone

/-- Mouse/zoom control configuration of the standalone viewer
(`initializeControls`). -/
structure MouseCtl where
  rotationSpeed : ℝ
  panSpeed : ℝ
  zoomSpeed : ℝ
  minZoom : ℝ
  maxZoom : ℝ
  initialCameraPosition : Vec3

/-- Values set by `initializeControls` in viewer3d_standalone.js. -/
def ctlDefaults : MouseCtl :=
  ⟨0.005, 0.003, 0.1, 0.1, 50, ⟨0, 0, 5⟩⟩

/-- State of the standalone viewer relevant to framing and reset. -/
structure StState where
  modelPosition : Vec3
  modelRotation : Vec3
  cameraPosition : Vec3
  cameraRotation : Vec3
  cameraFov : ℝ
  controls : MouseCtl

/-- Size with the degenerate fallback of `autoFitModel`: if all three
components are exactly zero, substitute `(1, 1, 1)`. -/
def autoFitSize (box : Box3) : Vec3 :=
  let size := box.size
  if size.x = 0 ∧ size.y = 0 ∧ size.z = 0 then ⟨1, 1, 1⟩ else size

/-- Largest dimension of the (adjusted) box size, `autoFitModel`. -/
def autoFitMaxDim (box : Box3) : ℝ :=
  let size := autoFitSize box
  max size.x (max size.y size.z)

/-- Pre-margin distance of `autoFitModel`:
`max(maxDimension / (2 * tan(fov/2)), 1)` with `fov` in radians. -/
def autoFitDistance (box : Box3) (fov : ℝ) : ℝ :=
  max (autoFitMaxDim box / (2 * Real.tan (fov * (Real.pi / 180) / 2))) 1

/-- Final distance of `autoFitModel`: `max(distance * 2, 5)`. -/
def autoFitFinalDistance (box : Box3) (fov : ℝ) : ℝ :=
  max (autoFitDistance box fov * 2) 5

/-- Full effect of `autoFitModel`: recenter the model at the origin,
place the camera at `(0, 0, finalDistance)` looking at the origin, and
record the camera position as the reset pose. -/
def autoFitModel (st : StState) (box : Box3) : StState :=
  let center := box.center
  let finalDistance := autoFitFinalDistance box st.cameraFov
  { st with
      modelPosition := st.modelPosition.sub center
      cameraPosition := ⟨0, 0, finalDistance⟩
      cameraRotation := lookAtEuler ⟨0, 0, finalDistance⟩ ⟨0, 0, 0⟩
      controls := { st.controls with initialCameraPosition := ⟨0, 0, finalDistance⟩ } }

/-- Initial standalone state: camera fov 75, position `(0, 0, 5)`,
controls from `initializeControls`, model at the origin. -/
def initStState : StState :=
  ⟨⟨0, 0, 0⟩, ⟨0, 0, 0⟩, ⟨0, 0, 5⟩, lookAtEuler ⟨0, 0, 5⟩ ⟨0, 0, 0⟩, 75, ctlDefaults⟩

end Standalone

/-- Concrete large box used to exercise the framing clamp. -/
def bigBox : Box3 := ⟨⟨-50, -50, -50⟩, ⟨50, 50, 50⟩⟩

/-- Concrete 100-unit box used to refute the universal zoom-range claim
for the standalone variant. -/
def hundredBox : Box3 := ⟨⟨0, 0, 0⟩, ⟨100, 100, 100⟩⟩

/-- Scene state after a two-finger touch start with fingers at `(0, 0)`
and `(100, 0)` from the initial state: the captured baseline is pinch
distance 100 and midpoint `(50, 0)`. -/
def touchBaseState : Scene3DState :=
  Scene3D.onTouchStart2 Scene3D.initState ⟨0, 0⟩ ⟨100, 0⟩

/-- Lemma: squared length is nonnegative. -/
lemma Vec3.lengthSq_nonneg (v : Vec3) : 0 ≤ v.lengthSq := by
  unfold Vec3.lengthSq
  nlinarith [mul_self_nonneg v.x, mul_self_nonneg v.y, mul_self_nonneg v.z]

/-- Lemma: length is nonnegative. -/
lemma Vec3.length_nonneg (v : Vec3) : 0 ≤ v.length :=
  Real.sqrt_nonneg _

/-- Lemma: length vanishes exactly on the zero vector. -/
lemma Vec3.length_eq_zero_iff (v : Vec3) : v.length = 0 ↔ v = ⟨0, 0, 0⟩ := by
  unfold Vec3.length Vec3.lengthSq
  rw [Real.sqrt_eq_zero']
  constructor
  · intro h
    have hx : v.x * v.x = 0 := by
      nlinarith [mul_self_nonneg v.x, mul_self_nonneg v.y, mul_self_nonneg v.z]
    have hy : v.y * v.y = 0 := by
      nlinarith [mul_self_nonneg v.x, mul_self_nonneg v.y, mul_self_nonneg v.z]
    have hz : v.z * v.z = 0 := by
      nlinarith [mul_self_nonneg v.x, mul_self_nonneg v.y, mul_self_nonneg v.z]
    cases v
    simp_all [mul_self_eq_zero]
  · rintro rfl
    norm_num

/-- Lemma: length scales by the absolute value of the scalar. -/
lemma Vec3.length_smul (c : ℝ) (v : Vec3) : (Vec3.smul c v).length = |c| * v.length := by
  unfold Vec3.length Vec3.lengthSq Vec3.smul
  simp only
  rw [show c * v.x * (c * v.x) + c * v.y * (c * v.y) + c * v.z * (c * v.z)
        = c ^ 2 * (v.x * v.x + v.y * v.y + v.z * v.z) by ring,
    Real.sqrt_mul (sq_nonneg c), Real.sqrt_sq_eq_abs]

/-- Lemma: the three.js normalize yields a unit vector away from zero. -/
lemma Vec3.length_normalizeJS (v : Vec3) (h : v.length ≠ 0) : v.normalizeJS.length = 1 := by
  unfold Vec3.normalizeJS
  rw [if_neg h, Vec3.length_smul,
    abs_of_nonneg (div_nonneg zero_le_one (Vec3.length_nonneg v)), one_div,
    inv_mul_cancel₀ h]

/-- Lemma: the zero vector normalizes to itself under the `|| 1` guard. -/
lemma Vec3.normalizeJS_zero : Vec3.normalizeJS ⟨0, 0, 0⟩ = ⟨0, 0, 0⟩ := by
  unfold Vec3.normalizeJS Vec3.smul
  norm_num

/-- Lemma: square-root evaluation helper for concrete radicands. -/
lemma sqrtEval {a b : ℝ} (hb : 0 ≤ b) (h : b * b = a) : Real.sqrt a = b := by
  rw [← h]
  exact Real.sqrt_mul_self hb

/-- Lemma: the half field-of-view angle for fov 75 degrees. -/
lemma fov75Angle : 75 * (Real.pi / 180) / 2 = 5 * Real.pi / 24 := by
  ring

/-- Lemma: the tangent of the half field of view at fov 75 is positive. -/
lemma tan375_pos : 0 < Real.tan (5 * Real.pi / 24) :=
  Real.tan_pos_of_pos_of_lt_pi_div_two (by positivity) (by linarith [Real.pi_pos])

/-- Lemma: the tangent of 37.5 degrees is below one. -/
lemma tan375_lt_one : Real.tan (5 * Real.pi / 24) < 1 := by
  rw [← Real.tan_pi_div_four]
  exact Real.tan_lt_tan_of_lt_of_lt_pi_div_two (by linarith [Real.pi_pos])
    (by linarith [Real.pi_pos]) (by linarith [Real.pi_pos])

/-- Lemma: the tangent of 37.5 degrees exceeds two fifths. -/
lemma tan375_gt : 2 / 5 < Real.tan (5 * Real.pi / 24) := by
  have hs3 : Real.sqrt 3 ≠ 0 := by positivity
  have h6 : Real.tan (Real.pi / 6) = 1 / Real.sqrt 3 := by
    rw [Real.tan_eq_sin_div_cos, Real.sin_pi_div_six, Real.cos_pi_div_six]
    field_simp
  have h2 : 2 / 5 < 1 / Real.sqrt 3 := by
    rw [div_lt_div_iff₀ (by norm_num) (Real.sqrt_pos.mpr (by norm_num))]
    nlinarith [Real.sq_sqrt (show (0:ℝ) ≤ 3 by norm_num), Real.sqrt_nonneg 3]
  calc 2 / 5 < 1 / Real.sqrt 3 := h2
    _ = Real.tan (Real.pi / 6) := h6.symm
    _ < Real.tan (5 * Real.pi / 24) :=
        Real.tan_lt_tan_of_lt_of_lt_pi_div_two (by linarith [Real.pi_pos])
          (by linarith [Real.pi_pos]) (by linarith [Real.pi_pos])

/-- Lemma: look-at from a point on the positive z axis toward the origin
produces the identity Euler rotation. -/
lemma lookAtEuler_pos_z {d : ℝ} (hd : 0 < d) :
    lookAtEuler ⟨0, 0, d⟩ ⟨0, 0, 0⟩ = ⟨0, 0, 0⟩ := by
  have hdd : Real.sqrt (d * d) = d := Real.sqrt_mul_self hd.le
  norm_num [lookAtEuler, Vec3.sub, Vec3.lengthSq, Vec3.normalizeJS, Vec3.length,
    Vec3.smul, Vec3.cross, clampR, atan2, hdd, hd.ne', inv_mul_cancel₀ hd.ne',
    Real.sqrt_one, Real.arcsin_zero, Real.arctan_zero]

/-- Lemma: the view direction of the identity Euler rotation is `-z`. -/
lemma eulerDir_zero : eulerDir ⟨0, 0, 0⟩ = ⟨0, 0, -1⟩ := by
  norm_num [eulerDir, Vec3.normalizeJS, Vec3.length, Vec3.lengthSq, Vec3.smul,
    Real.sqrt_one]

/-- Lemma: the distance clamp pattern of `zoomCamera` maps any vector to
one of length zero (the zero vector survives the `|| 1` normalize guard)
or of length inside `[zoomMinDistance, zoomMaxDistance]`. -/
lemma distClamp (q : Vec3) :
    (if q.length < Scene3D.zoomMinDistance then Vec3.smul Scene3D.zoomMinDistance q.normalizeJS
     else if Scene3D.zoomMaxDistance < q.length then
       Vec3.smul Scene3D.zoomMaxDistance q.normalizeJS
     else q).length = 0 ∨
      (Scene3D.zoomMinDistance ≤
        (if q.length < Scene3D.zoomMinDistance then
          Vec3.smul Scene3D.zoomMinDistance q.normalizeJS
         else if Scene3D.zoomMaxDistance < q.length then
           Vec3.smul Scene3D.zoomMaxDistance q.normalizeJS
         else q).length ∧
        (if q.length < Scene3D.zoomMinDistance then
          Vec3.smul Scene3D.zoomMinDistance q.normalizeJS
         else if Scene3D.zoomMaxDistance < q.length then
           Vec3.smul Scene3D.zoomMaxDistance q.normalizeJS
         else q).length ≤ Scene3D.zoomMaxDistance) := by
  simp only [Scene3D.zoomMinDistance, Scene3D.zoomMaxDistance]
  by_cases h0 : q.length = 0
  · have hz : q = ⟨0, 0, 0⟩ := (Vec3.length_eq_zero_iff q).mp h0
    left
    rw [if_pos (by rw [h0]; norm_num), hz, Vec3.normalizeJS_zero]
    simp [Vec3.smul, Vec3.length, Vec3.lengthSq]
  · by_cases h1 : q.length < 1
    · right
      rw [if_pos h1, Vec3.length_smul, Vec3.length_normalizeJS q h0]
      norm_num
    · by_cases h2 : (10 : ℝ) < q.length
      · right
        rw [if_neg h1, if_pos h2, Vec3.length_smul, Vec3.length_normalizeJS q h0]
        norm_num
      · right
        rw [if_neg h1, if_neg h2]
        exact ⟨not_lt.mp h1, not_lt.mp h2⟩

/-- Lemma: one zoom step leaves the camera either exactly at the origin
(the `normalize` of the zero vector is the zero vector) or at a distance
inside `[zoomMinDistance, zoomMaxDistance]` from the origin. -/
lemma zoomCameraC_dist (cam : Camera3) (delta : ℝ) :
    (Scene3D.zoomCameraC cam delta).position.length = 0 ∨
      (Scene3D.zoomMinDistance ≤ (Scene3D.zoomCameraC cam delta).position.length ∧
        (Scene3D.zoomCameraC cam delta).position.length ≤ Scene3D.zoomMaxDistance) :=
  distClamp (cam.position.add (Vec3.smul delta (eulerDir cam.rotation)))

/-- Lemma: the state-level zoom yields the same distance alternative. -/
lemma zoomCamera_dist (st : Scene3DState) (delta : ℝ) :
    (Scene3D.zoomCamera st delta).camera.position.length = 0 ∨
      (Scene3D.zoomMinDistance ≤ (Scene3D.zoomCamera st delta).camera.position.length ∧
        (Scene3D.zoomCamera st delta).camera.position.length ≤ Scene3D.zoomMaxDistance) :=
  zoomCameraC_dist st.camera delta

/-- Lemma: after a nonempty fold of zoom steps the alternative holds. -/
lemma applyZooms_dist (st : Scene3DState) (ds : List ℝ) (h : ds ≠ []) :
    (Scene3D.applyZooms st ds).camera.position.length = 0 ∨
      (Scene3D.zoomMinDistance ≤ (Scene3D.applyZooms st ds).camera.position.length ∧
        (Scene3D.applyZooms st ds).camera.position.length ≤ Scene3D.zoomMaxDistance) := by
  induction ds generalizing st with
  | nil => exact absurd rfl h
  | cons d ds ih =>
      cases ds with
      | nil => exact zoomCamera_dist st d
      | cons d2 ds2 =>
          exact ih (Scene3D.zoomCamera st d) (by simp)

/-- Lemma: a point rebuilt from spherical coordinates has length equal to
the absolute value of the radius. -/
lemma length_setFromSpherical (r phi theta : ℝ) :
    (setFromSpherical r phi theta).length = |r| := by
  unfold setFromSpherical Vec3.length Vec3.lengthSq
  simp only
  rw [show Real.sin phi * r * Real.sin theta * (Real.sin phi * r * Real.sin theta) +
        Real.cos phi * r * (Real.cos phi * r) +
        Real.sin phi * r * Real.cos theta * (Real.sin phi * r * Real.cos theta)
      = r ^ 2 * (Real.sin phi ^ 2 * (Real.sin theta ^ 2 + Real.cos theta ^ 2) +
          Real.cos phi ^ 2) by ring,
    Real.sin_sq_add_cos_sq, mul_one, Real.sin_sq_add_cos_sq, mul_one,
    Real.sqrt_sq_eq_abs]

/-- Lemma: the polar angle read back from a spherical rebuild with positive
radius and `phi` in `[0, pi]` is `phi` itself. -/
lemma sphericalPhiOf_setFromSpherical (r phi theta : ℝ) (hr : 0 < r)
    (h0 : 0 ≤ phi) (h1 : phi ≤ Real.pi) :
    sphericalPhiOf (setFromSpherical r phi theta) = phi := by
  have hlen : (setFromSpherical r phi theta).length = r := by
    rw [length_setFromSpherical, abs_of_pos hr]
  unfold sphericalPhiOf
  rw [if_neg (by rw [hlen]; exact hr.ne')]
  rw [hlen]
  have hy : (setFromSpherical r phi theta).y = Real.cos phi * r := rfl
  rw [hy, mul_div_assoc, div_self hr.ne', mul_one, clampR,
    min_eq_right (Real.cos_le_one phi), max_eq_right (Real.neg_one_le_cos phi)]
  exact Real.arccos_cos h0 h1

/-- Lemma: the clamped polar angle lies in `[0.1, pi - 0.1]`. -/
lemma phiClampMem (w : ℝ) :
    0.1 ≤ max 0.1 (min (Real.pi - 0.1) w) ∧
      max 0.1 (min (Real.pi - 0.1) w) ≤ Real.pi - 0.1 := by
  constructor
  · exact le_max_left _ _
  · exact max_le (by linarith [Real.pi_gt_three]) (min_le_left _ _)

/-- Lemma: one orbit step never changes the camera's distance from the
origin (rotation preserves the spherical radius). -/
lemma rotateCameraC_radius (cam : Camera3) (dx dy : ℝ) :
    (Scene3D.rotateCameraC cam dx dy).position.length = cam.position.length := by
  unfold Scene3D.rotateCameraC
  simp only
  rw [length_setFromSpherical]
  exact abs_of_nonneg (Vec3.length_nonneg cam.position)

/-- Lemma: after one orbit step from a position at positive distance, the
polar angle of the camera position lies in `[0.1, pi - 0.1]`. -/
lemma rotateCameraC_phi (cam : Camera3) (dx dy : ℝ) (h : 0 < cam.position.length) :
    0.1 ≤ sphericalPhiOf (Scene3D.rotateCameraC cam dx dy).position ∧
      sphericalPhiOf (Scene3D.rotateCameraC cam dx dy).position ≤ Real.pi - 0.1 := by
  unfold Scene3D.rotateCameraC
  simp only [sphericalRadiusOf]
  rw [sphericalPhiOf_setFromSpherical _ _ _ h
    (by linarith [(phiClampMem (sphericalPhiOf cam.position +
      dy * Scene3D.rotationSensitivity)).1])
    (by linarith [Real.pi_pos, (phiClampMem (sphericalPhiOf cam.position +
      dy * Scene3D.rotationSensitivity)).2])]
  exact phiClampMem _

/-- Lemma: state-level orbit preserves the camera distance. -/
lemma rotateCamera_radius (st : Scene3DState) (dx dy : ℝ) :
    (Scene3D.rotateCamera st dx dy).camera.position.length = st.camera.position.length :=
  rotateCameraC_radius st.camera dx dy

/-- Lemma: after a nonempty fold of orbit steps from a position at positive
distance, the polar angle lies in `[0.1, pi - 0.1]`. -/
lemma applyRotates_phi (st : Scene3DState) (ds : List (ℝ × ℝ))
    (h0 : 0 < st.camera.position.length) (h : ds ≠ []) :
    0.1 ≤ sphericalPhiOf (Scene3D.applyRotates st ds).camera.position ∧
      sphericalPhiOf (Scene3D.applyRotates st ds).camera.position ≤ Real.pi - 0.1 := by
  induction ds generalizing st with
  | nil => exact absurd rfl h
  | cons d ds ih =>
      cases ds with
      | nil => exact rotateCameraC_phi st.camera d.1 d.2 h0
      | cons d2 ds2 =>
          refine ih (Scene3D.rotateCamera st d.1 d.2) ?_ (by simp)
          rw [rotateCamera_radius]
          exact h0

/-- Lemma: a fold of orbit steps preserves the camera distance. -/
lemma applyRotates_radius (st : Scene3DState) (ds : List (ℝ × ℝ)) :
    (Scene3D.applyRotates st ds).camera.position.length = st.camera.position.length := by
  induction ds generalizing st with
  | nil => rfl
  | cons d ds ih =>
      rw [show Scene3D.applyRotates st (d :: ds)
          = Scene3D.applyRotates (Scene3D.rotateCamera st d.1 d.2) ds from rfl,
        ih, rotateCamera_radius]

/-- Lemma: size of the cube box spanning `[-1, 1]` in each axis. -/
lemma unitBoxSize : Box3.size ⟨⟨-1, -1, -1⟩, ⟨1, 1, 1⟩⟩ = ⟨2, 2, 2⟩ := by
  unfold Box3.size
  norm_num

/-- Lemma: the adjusted auto-fit size of the `[-1, 1]` cube. -/
lemma unitBoxAutoFitSize : Standalone.autoFitSize ⟨⟨-1, -1, -1⟩, ⟨1, 1, 1⟩⟩ = ⟨2, 2, 2⟩ := by
  unfold Standalone.autoFitSize
  rw [unitBoxSize]
  norm_num

/-- Lemma: the largest dimension of the `[-1, 1]` cube is 2. -/
lemma unitBoxMaxDim : Standalone.autoFitMaxDim ⟨⟨-1, -1, -1⟩, ⟨1, 1, 1⟩⟩ = 2 := by
  unfold Standalone.autoFitMaxDim
  rw [unitBoxAutoFitSize]
  simp [max_self]

/-- Lemma: both spellings of the half field-of-view angle agree. -/
lemma fov75AngleHalf : 37.5 * (Real.pi / 180) = 5 * Real.pi / 24 := by
  ring

/-- Lemma: the pre-margin auto-fit distance of the `[-1, 1]` cube at fov 75
in the form the specification writes it. -/
lemma unitBoxDistance : Standalone.autoFitDistance ⟨⟨-1, -1, -1⟩, ⟨1, 1, 1⟩⟩ 75
    = max (2 / (2 * Real.tan (37.5 * (Real.pi / 180)))) 1 := by
  unfold Standalone.autoFitDistance
  rw [unitBoxMaxDim, fov75Angle, fov75AngleHalf]

/-- Lemma: the pre-margin distance is at most five halves. -/
lemma unitBoxDistance_le : Standalone.autoFitDistance ⟨⟨-1, -1, -1⟩, ⟨1, 1, 1⟩⟩ 75 ≤ 5 / 2 := by
  rw [unitBoxDistance, fov75AngleHalf]
  refine max_le ?_ (by norm_num)
  rw [div_le_iff₀ (mul_pos two_pos tan375_pos)]
  nlinarith [tan375_gt]

/-- Lemma: the final auto-fit distance of the `[-1, 1]` cube at fov 75. -/
lemma unitBoxFinalDistance :
    Standalone.autoFitFinalDistance ⟨⟨-1, -1, -1⟩, ⟨1, 1, 1⟩⟩ 75 = 5 := by
  unfold Standalone.autoFitFinalDistance
  exact max_eq_right (by linarith [unitBoxDistance_le])

/-- Claim C1: for an object with bounding box `min = (-1,-1,-1)` and
`max = (1,1,1)` and camera fov 75 degrees, `autoFitModel` computes
`maxDim = 2`, pre-margin `distance = max(2 / (2 * tan(37.5 deg)), 1)`,
final distance exactly 5, and places the camera at `(0, 0, 5)` looking at
the origin. -/
theorem claim1_autofit_end_to_end (st : Standalone.StState) (hfov : st.cameraFov = 75) :
    Standalone.autoFitMaxDim ⟨⟨-1, -1, -1⟩, ⟨1, 1, 1⟩⟩ = 2 ∧
      Standalone.autoFitDistance ⟨⟨-1, -1, -1⟩, ⟨1, 1, 1⟩⟩ 75
        = max (2 / (2 * Real.tan (37.5 * (Real.pi / 180)))) 1 ∧
      Standalone.autoFitFinalDistance ⟨⟨-1, -1, -1⟩, ⟨1, 1, 1⟩⟩ 75 = 5 ∧
      (Standalone.autoFitModel st ⟨⟨-1, -1, -1⟩, ⟨1, 1, 1⟩⟩).cameraPosition = ⟨0, 0, 5⟩ ∧
      (Standalone.autoFitModel st ⟨⟨-1, -1, -1⟩, ⟨1, 1, 1⟩⟩).cameraRotation
        = lookAtEuler ⟨0, 0, 5⟩ ⟨0, 0, 0⟩ := by
  refine ⟨unitBoxMaxDim, unitBoxDistance, unitBoxFinalDistance, ?_, ?_⟩
  · unfold Standalone.autoFitModel
    simp only [hfov, unitBoxFinalDistance]
  · unfold Standalone.autoFitModel
    simp only [hfov, unitBoxFinalDistance]

/-- Claim C1 witness: the initial standalone state has fov 75 and the
auto-fit places its camera at `(0, 0, 5)`. -/
theorem claim1_witness :
    Standalone.initStState.cameraFov = 75 ∧
      (Standalone.autoFitModel Standalone.initStState
        ⟨⟨-1, -1, -1⟩, ⟨1, 1, 1⟩⟩).cameraPosition = ⟨0, 0, 5⟩ :=
  ⟨rfl, (claim1_autofit_end_to_end Standalone.initStState rfl).2.2.2.1⟩

/-- Lemma: the largest dimension of the 100-unit box is 100. -/
lemma hundredBoxMaxDim : Standalone.autoFitMaxDim hundredBox = 100 := by
  unfold Standalone.autoFitMaxDim Standalone.autoFitSize hundredBox Box3.size
  norm_num [max_self]

/-- Claim C6 counterexample: the auto-fit of the standalone variant is not
clamped into the zoom range of its own interaction layer: framing a
100-unit box at fov 75 yields a final distance strictly above
`maxZoom = 50` from `initializeControls`. -/
theorem claim6_counterexample :
    Standalone.ctlDefaults.maxZoom < Standalone.autoFitFinalDistance hundredBox 75 := by
  have ht := tan375_pos
  have ht1 := tan375_lt_one
  unfold Standalone.autoFitFinalDistance Standalone.autoFitDistance
  rw [hundredBoxMaxDim, fov75Angle]
  have h1 : (100 : ℝ) / (2 * Real.tan (5 * Real.pi / 24)) * 2
      = 100 / Real.tan (5 * Real.pi / 24) := by
    field_simp
    ring
  have h2 : (50 : ℝ) < 100 / Real.tan (5 * Real.pi / 24) := by
    rw [lt_div_iff₀ ht]
    nlinarith
  calc Standalone.ctlDefaults.maxZoom = 50 := rfl
    _ < 100 / Real.tan (5 * Real.pi / 24) := h2
    _ = 100 / (2 * Real.tan (5 * Real.pi / 24)) * 2 := h1.symm
    _ ≤ max (100 / (2 * Real.tan (5 * Real.pi / 24))) 1 * 2 :=
        mul_le_mul_of_nonneg_right (le_max_left _ _) (by norm_num)
    _ ≤ max (max (100 / (2 * Real.tan (5 * Real.pi / 24))) 1 * 2) 5 := le_max_left _ _

/-- Claim C6 amended: in the part_001 variant the framing distance
`cameraZ` is always clamped into the `[1, 10]` range that `zoomCamera`
enforces, so a freshly framed view there never violates the zoom limits;
in the standalone variant the final distance is only bounded below (it is
always at least 5, hence at least `minZoom`), not clamped above. -/
theorem claim6_amended :
    (∀ (box : Box3) (fov : ℝ),
        Scene3D.zoomMinDistance ≤ Scene3D.fitCameraZ box fov ∧
          Scene3D.fitCameraZ box fov ≤ Scene3D.zoomMaxDistance) ∧
      ∀ (box : Box3) (fov : ℝ),
        Standalone.ctlDefaults.minZoom ≤ Standalone.autoFitFinalDistance box fov := by
  constructor
  · intro box fov
    unfold Scene3D.fitCameraZ
    simp only [Scene3D.fitMinDistance, Scene3D.fitMaxDistance, Scene3D.zoomMinDistance,
      Scene3D.zoomMaxDistance]
    constructor
    · exact le_max_left _ _
    · exact max_le (by norm_num) (min_le_left _ _)
  · intro box fov
    unfold Standalone.autoFitFinalDistance
    calc Standalone.ctlDefaults.minZoom = 0.1 := rfl
      _ ≤ 5 := by norm_num
      _ ≤ max (Standalone.autoFitDistance box fov * 2) 5 := le_max_right _ _

/-- Lemma: the framing distance of the 100-unit cube `bigBox` in the
part_001 variant is clamped to the upper bound 10. -/
lemma fitCameraZ_bigBox : Scene3D.fitCameraZ bigBox 75 = 10 := by
  have ht := tan375_pos
  have ht1 := tan375_lt_one
  have hsize : Box3.size bigBox = ⟨100, 100, 100⟩ := by
    unfold bigBox Box3.size
    norm_num
  unfold Scene3D.fitCameraZ
  rw [hsize]
  simp only [Scene3D.fitMinDistance, Scene3D.fitMaxDistance, max_self, fov75Angle]
  have habs : |(100 : ℝ) / 2 / Real.tan (5 * Real.pi / 24)|
      = 50 / Real.tan (5 * Real.pi / 24) := by
    rw [abs_of_pos (by positivity)]
    ring
  rw [habs]
  have h10 : (10 : ℝ) ≤ 50 / Real.tan (5 * Real.pi / 24) * 1.5 := by
    rw [show (50 : ℝ) / Real.tan (5 * Real.pi / 24) * 1.5
        = 75 / Real.tan (5 * Real.pi / 24) by ring, le_div_iff₀ ht]
    nlinarith
  rw [min_eq_left h10]
  exact max_eq_right (by norm_num)

/-- Lemma: the center of `bigBox` is the origin. -/
lemma bigBoxCenter : Box3.center bigBox = ⟨0, 0, 0⟩ := by
  unfold bigBox Box3.center
  norm_num

/-- Lemma: framing `bigBox` from the initial part_001 camera puts the
camera at `(0, 0, 10)`. -/
lemma fit_bigBox_position :
    (Scene3D.fitModelToViewC Scene3D.initCameraState bigBox).position = ⟨0, 0, 10⟩ := by
  unfold Scene3D.fitModelToViewC
  simp only [bigBoxCenter]
  rw [show Scene3D.initCameraState.fov = 75 from rfl, fitCameraZ_bigBox]
  norm_num

/-- Lemma: after framing `bigBox` the camera rotation is the identity. -/
lemma fit_bigBox_rotation :
    (Scene3D.fitModelToViewC Scene3D.initCameraState bigBox).rotation = ⟨0, 0, 0⟩ := by
  unfold Scene3D.fitModelToViewC
  simp only [bigBoxCenter]
  rw [show Scene3D.initCameraState.fov = 75 from rfl, fitCameraZ_bigBox]
  rw [show (Vec3.mk 0 0 (0 + 10)) = ⟨0, 0, 10⟩ by norm_num]
  exact lookAtEuler_pos_z (by norm_num)

/-- Claim C2 counterexample: starting from the reachable state obtained by
framing `bigBox` (camera at `(0, 0, 10)` looking at the origin), a single
zoom delta of 10 moves the camera exactly onto the origin; the clamp
renormalizes the zero vector to itself, so the resulting distance is 0,
strictly below `zoomMinDistance` and outside `[minZoom, maxZoom]`. -/
theorem claim2_counterexample :
    (Scene3D.zoomCamera (Scene3D.fitModelToView Scene3D.initState bigBox)
        10).camera.position.length = 0 ∧
      ¬ Scene3D.zoomMinDistance ≤
          (Scene3D.zoomCamera (Scene3D.fitModelToView Scene3D.initState bigBox)
            10).camera.position.length := by
  have hpos :
      (Scene3D.zoomCamera (Scene3D.fitModelToView Scene3D.initState bigBox)
        10).camera.position = ⟨0, 0, 0⟩ := by
    show (Scene3D.zoomCameraC (Scene3D.fitModelToViewC Scene3D.initCameraState bigBox)
        10).position = ⟨0, 0, 0⟩
    unfold Scene3D.zoomCameraC
    rw [fit_bigBox_rotation, fit_bigBox_position, eulerDir_zero]
    have hmoved : Vec3.add ⟨0, 0, 10⟩ (Vec3.smul 10 ⟨0, 0, -1⟩) = ⟨0, 0, 0⟩ := by
      unfold Vec3.add Vec3.smul
      norm_num
    have hlen : (Vec3.mk 0 0 0).length = 0 := by
      unfold Vec3.length Vec3.lengthSq
      norm_num
    simp only [hmoved, hlen]
    rw [if_pos (by norm_num [Scene3D.zoomMinDistance]), Vec3.normalizeJS_zero]
    unfold Vec3.smul
    norm_num
  have hlen0 :
      (Scene3D.zoomCamera (Scene3D.fitModelToView Scene3D.initState bigBox)
        10).camera.position.length = 0 := by
    rw [hpos]
    unfold Vec3.length Vec3.lengthSq
    norm_num
  refine ⟨hlen0, ?_⟩
  rw [hlen0]
  norm_num [Scene3D.zoomMinDistance]

/-- Claim C2 amended: after any nonempty sequence of zoom deltas the
camera's distance from the origin either lies in `[minZoom, maxZoom]` or
is exactly 0: each step that would exceed a bound renormalizes the
position to the nearest bound, except that the zero position vector is
left unchanged by the `length() || 1` normalize guard. -/
theorem claim2_amended (st : Scene3DState) (ds : List ℝ) (h : ds ≠ []) :
    (Scene3D.applyZooms st ds).camera.position.length = 0 ∨
      (Scene3D.zoomMinDistance ≤ (Scene3D.applyZooms st ds).camera.position.length ∧
        (Scene3D.applyZooms st ds).camera.position.length ≤ Scene3D.zoomMaxDistance) :=
  applyZooms_dist st ds h

/-- Claim C2 amended witness: one zoom delta of 1 from the initial state
satisfies the distance alternative. -/
theorem claim2_witness :
    ([ (1 : ℝ) ] ≠ []) ∧
      ((Scene3D.applyZooms Scene3D.initState [1]).camera.position.length = 0 ∨
        (Scene3D.zoomMinDistance ≤
            (Scene3D.applyZooms Scene3D.initState [1]).camera.position.length ∧
          (Scene3D.applyZooms Scene3D.initState [1]).camera.position.length ≤
            Scene3D.zoomMaxDistance)) :=
  ⟨by simp, claim2_amended Scene3D.initState [1] (by simp)⟩

/-- Claim C3: for every finite nonempty sequence of orbit deltas applied
from a camera at positive distance, the polar angle of the resulting
camera position lies in `[0.1, pi - 0.1]`; and every individual orbit step
leaves the camera's distance from the target unchanged. -/
theorem claim3_orbit_phi_radius (st : Scene3DState) (ds : List (ℝ × ℝ))
    (h0 : 0 < st.camera.position.length) (h : ds ≠ []) :
    (0.1 ≤ sphericalPhiOf (Scene3D.applyRotates st ds).camera.position ∧
      sphericalPhiOf (Scene3D.applyRotates st ds).camera.position ≤ Real.pi - 0.1) ∧
      ∀ (st2 : Scene3DState) (dx dy : ℝ),
        (Scene3D.rotateCamera st2 dx dy).camera.position.length
          = st2.camera.position.length :=
  ⟨applyRotates_phi st ds h0 h, fun st2 dx dy => rotateCamera_radius st2 dx dy⟩

/-- Lemma: the initial part_001 camera sits at distance 5 from the
origin. -/
lemma initState_length : Scene3D.initState.camera.position.length = 5 := by
  show (Vec3.mk 0 0 5).length = 5
  unfold Vec3.length Vec3.lengthSq
  rw [show (0 : ℝ) * 0 + 0 * 0 + 5 * 5 = 5 * 5 by norm_num]
  exact Real.sqrt_mul_self (by norm_num)

/-- Claim C3 witness: one orbit delta from the initial state keeps the
polar angle inside the clamp range. -/
theorem claim3_witness :
    (0 < Scene3D.initState.camera.position.length ∧ ([((1 : ℝ), (1 : ℝ))] ≠ [])) ∧
      (0.1 ≤ sphericalPhiOf (Scene3D.applyRotates Scene3D.initState
          [(1, 1)]).camera.position ∧
        sphericalPhiOf (Scene3D.applyRotates Scene3D.initState
          [(1, 1)]).camera.position ≤ Real.pi - 0.1) :=
  ⟨⟨by rw [initState_length]; norm_num, by simp⟩,
    (claim3_orbit_phi_radius Scene3D.initState [(1, 1)]
      (by rw [initState_length]; norm_num) (by simp)).1⟩

/-- Claim C8: for every camera fov (part of the state), `autoFitModel` on a
bounding box whose size is all-zero gives exactly the same resulting state
as on a box of size `(1, 1, 1)` with the same center: the degenerate size
is substituted by `(1, 1, 1)`. -/
theorem claim8_degenerate_size (st : Standalone.StState) (b1 b2 : Box3)
    (h1 : Box3.size b1 = ⟨0, 0, 0⟩) (h2 : Box3.size b2 = ⟨1, 1, 1⟩)
    (h3 : Box3.center b1 = Box3.center b2) :
    Standalone.autoFitModel st b1 = Standalone.autoFitModel st b2 := by
  have hs : Standalone.autoFitSize b1 = Standalone.autoFitSize b2 := by
    unfold Standalone.autoFitSize
    rw [h1, h2]
    norm_num
  have hd : Standalone.autoFitFinalDistance b1 st.cameraFov
      = Standalone.autoFitFinalDistance b2 st.cameraFov := by
    unfold Standalone.autoFitFinalDistance Standalone.autoFitDistance
      Standalone.autoFitMaxDim
    rw [hs]
  simp only [Standalone.autoFitModel]
  rw [h3, hd]

/-- Claim C8 witness: a point box at `(2, 3, 4)` frames exactly like the
unit cube centered at `(2, 3, 4)`. -/
theorem claim8_witness :
    (Box3.size ⟨⟨2, 3, 4⟩, ⟨2, 3, 4⟩⟩ = ⟨0, 0, 0⟩ ∧
      Box3.size ⟨⟨1.5, 2.5, 3.5⟩, ⟨2.5, 3.5, 4.5⟩⟩ = ⟨1, 1, 1⟩ ∧
      Box3.center ⟨⟨2, 3, 4⟩, ⟨2, 3, 4⟩⟩
        = Box3.center ⟨⟨1.5, 2.5, 3.5⟩, ⟨2.5, 3.5, 4.5⟩⟩) ∧
      Standalone.autoFitModel Standalone.initStState ⟨⟨2, 3, 4⟩, ⟨2, 3, 4⟩⟩
        = Standalone.autoFitModel Standalone.initStState
            ⟨⟨1.5, 2.5, 3.5⟩, ⟨2.5, 3.5, 4.5⟩⟩ :=
  ⟨⟨by norm_num [Box3.size], by norm_num [Box3.size], by norm_num [Box3.center]⟩,
    claim8_degenerate_size Standalone.initStState _ _ (by norm_num [Box3.size])
      (by norm_num [Box3.size]) (by norm_num [Box3.center])⟩

/-- Claim C10: calling `resetView` before any view has been saved is a
total no-op: the guard `if (!this.savedView) return` leaves the whole
state, camera pose included, unchanged, and no error is raised (the
function is total). -/
theorem claim10_reset_noop (st : Scene3DState) (h : st.savedView = none) :
    Scene3D.resetView st = st := by
  unfold Scene3D.resetView
  rw [h]

/-- Claim C10 witness: the pre-init state has no saved view and resetting
it changes nothing. -/
theorem claim10_witness :
    Scene3D.preInitState.savedView = none ∧
      Scene3D.resetView Scene3D.preInitState = Scene3D.preInitState :=
  ⟨rfl, claim10_reset_noop Scene3D.preInitState rfl⟩

/-- Lemma: no camera operation touches the saved view. -/
lemma applyOp_savedView (st : Scene3DState) (op : Scene3D.CamOp) :
    (Scene3D.applyOp st op).savedView = st.savedView := by
  cases op <;> rfl

/-- Lemma: no sequence of camera operations touches the saved view. -/
lemma applyOps_savedView (st : Scene3DState) (ops : List Scene3D.CamOp) :
    (Scene3D.applyOps st ops).savedView = st.savedView := by
  induction ops generalizing st with
  | nil => rfl
  | cons op ops ih =>
      rw [show Scene3D.applyOps st (op :: ops)
          = Scene3D.applyOps (Scene3D.applyOp st op) ops from rfl,
        ih, applyOp_savedView]

/-- Claim C7 counterexample: in the part_001 variant, `saveCurrentView` is
called only by `init`, before any model is loaded.  Framing `bigBox` moves
the camera to `(0, 0, 10)`, but `resetView` after a further zoom restores
the init-time position `(0, 0, 5)`, not the pose established by the most
recent auto-fit. -/
theorem claim7_counterexample :
    (Scene3D.fitModelToView Scene3D.initState bigBox).camera.position = ⟨0, 0, 10⟩ ∧
      (Scene3D.resetView (Scene3D.zoomCamera
          (Scene3D.fitModelToView Scene3D.initState bigBox) 1)).camera.position
        = ⟨0, 0, 5⟩ ∧
      Vec3.mk 0 0 10 ≠ Vec3.mk 0 0 5 := by
  refine ⟨fit_bigBox_position, ?_, by simp⟩
  have hs : (Scene3D.zoomCamera (Scene3D.fitModelToView Scene3D.initState bigBox)
      1).savedView = some ⟨⟨0, 0, 5⟩, lookAtEuler ⟨0, 0, 5⟩ ⟨0, 0, 0⟩, 1⟩ := rfl
  unfold Scene3D.resetView
  rw [hs]

/-- Claim C7 amended: `resetView` restores exactly the snapshot captured
by the most recent `saveCurrentView` call, and no pan, orbit, zoom or fit
operation ever updates that snapshot; in part_001 the only
`saveCurrentView` call happens during `init`, before any auto-fit, so
reset returns to the init pose rather than the most recent auto-fit
pose. -/
theorem claim7_amended (st : Scene3DState) (v : SavedView)
    (ops : List Scene3D.CamOp) (h : st.savedView = some v) :
    (Scene3D.resetView (Scene3D.applyOps st ops)).camera.position = v.position ∧
      (Scene3D.resetView (Scene3D.applyOps st ops)).camera.rotation = v.rotation ∧
      (Scene3D.resetView (Scene3D.applyOps st ops)).camera.zoom = v.zoom := by
  have hs : (Scene3D.applyOps st ops).savedView = some v := by
    rw [applyOps_savedView, h]
  refine ⟨?_, ?_, ?_⟩ <;> (unfold Scene3D.resetView; rw [hs])

/-- Claim C7 amended witness: after a zoom from the init state, reset
restores the init-time snapshot. -/
theorem claim7_witness :
    Scene3D.initState.savedView
        = some ⟨⟨0, 0, 5⟩, lookAtEuler ⟨0, 0, 5⟩ ⟨0, 0, 0⟩, 1⟩ ∧
      (Scene3D.resetView (Scene3D.applyOps Scene3D.initState
          [Scene3D.CamOp.zoom 1])).camera.position = ⟨0, 0, 5⟩ :=
  ⟨rfl, (claim7_amended Scene3D.initState ⟨⟨0, 0, 5⟩, lookAtEuler ⟨0, 0, 5⟩ ⟨0, 0, 0⟩, 1⟩
    [Scene3D.CamOp.zoom 1] rfl).1⟩

/-- Claim C9 counterexample: on a transition from two touches to one touch
(`onTouchEnd` with one remaining touch) the stored pinch baseline is NOT
discarded: after a two-finger start it still holds the captured
distance. -/
theorem claim9_counterexample :
    (Scene3D.onTouchEnd (Scene3D.onTouchStart2 Scene3D.initState ⟨0, 0⟩ ⟨100, 0⟩)
        [⟨0, 0⟩]).lastPinchDistance ≠ none ∧
      (Scene3D.onTouchEnd (Scene3D.onTouchStart2 Scene3D.initState ⟨0, 0⟩ ⟨100, 0⟩)
        [⟨0, 0⟩]).lastPinchDistance = some (touchDist ⟨0, 0⟩ ⟨100, 0⟩) := by
  constructor
  · show some (touchDist ⟨0, 0⟩ ⟨100, 0⟩) ≠ none
    simp
  · rfl

/-- Claim C9 amended: the baselines are discarded only when all touches
end (zero remaining); on a transition from two touches to one they are
retained, but the next two-finger gesture still starts from a fresh
baseline because a two-touch `onTouchStart` overwrites both stored values
with the new touches' distance and midpoint. -/
theorem claim9_amended :
    (∀ st : Scene3DState,
        (Scene3D.onTouchEnd st []).lastPinchDistance = none ∧
          (Scene3D.onTouchEnd st []).lastTwoFingerCenter = none) ∧
      ∀ (st : Scene3DState) (t1 t2 : Point2),
        (Scene3D.onTouchStart2 st t1 t2).lastPinchDistance = some (touchDist t1 t2) ∧
          (Scene3D.onTouchStart2 st t1 t2).lastTwoFingerCenter = some (touchMid t1 t2) :=
  ⟨fun _ => ⟨rfl, rfl⟩, fun _ _ _ => ⟨rfl, rfl⟩⟩

/-- Lemma: the distance between `(0, 0)` and `(100, 0)` is 100. -/
lemma tDist100 : touchDist ⟨0, 0⟩ ⟨100, 0⟩ = 100 := by
  unfold touchDist
  exact sqrtEval (by norm_num) (by norm_num)

/-- Lemma: the midpoint of `(0, 0)` and `(100, 0)`. -/
lemma mid100 : touchMid ⟨0, 0⟩ ⟨100, 0⟩ = ⟨50, 0⟩ := by
  unfold touchMid
  norm_num

/-- Lemma: the captured pinch baseline of `touchBaseState`. -/
lemma basePinch : touchBaseState.lastPinchDistance = some 100 := by
  show some (touchDist ⟨0, 0⟩ ⟨100, 0⟩) = some 100
  rw [tDist100]

/-- Lemma: the captured midpoint baseline of `touchBaseState`. -/
lemma baseCenter : touchBaseState.lastTwoFingerCenter = some ⟨50, 0⟩ := by
  show some (touchMid ⟨0, 0⟩ ⟨100, 0⟩) = some ⟨50, 0⟩
  rw [mid100]

/-- Lemma: the two-finger frame with constant pinch distance and a moved
midpoint applies exactly one orbit delta and no zoom: the scaled distance
delta is zero, below the 0.5 gate, and the midpoint gate passes. -/
lemma touchMoveRotateOnly (st : Scene3DState) (d0 : ℝ) (c0 t1 t2 : Point2)
    (hp : st.lastPinchDistance = some d0) (hd0 : d0 ≠ 0)
    (hc : st.lastTwoFingerCenter = some c0)
    (ht : touchDist t1 t2 = d0)
    (hmv : Real.sqrt (((touchMid t1 t2).x - c0.x) * ((touchMid t1 t2).x - c0.x) +
        ((touchMid t1 t2).y - c0.y) * ((touchMid t1 t2).y - c0.y)) = 20) :
    (Scene3D.onTouchMove2 st t1 t2).camera
      = Scene3D.rotateCameraC st.camera ((touchMid t1 t2).x - c0.x)
          ((touchMid t1 t2).y - c0.y) := by
  unfold Scene3D.onTouchMove2
  rw [hp, hc]
  simp only [ht, sub_self, zero_mul, abs_zero, hmv, if_neg hd0]
  rw [if_neg (show ¬(0.5 : ℝ) < 0 by norm_num),
    if_pos (show (5 : ℝ) < 20 ∧ (0 : ℝ) < 20 by norm_num)]
  rfl

/-- Lemma: the two-finger frame with constant midpoint and a pinch change
of 10 units applies neither a zoom (scaled delta 0.1 is below the 0.5
gate) nor a rotate (midpoint movement 0 is below the 5 px gate). -/
lemma touchMoveNeitherTen (st : Scene3DState) (d0 : ℝ) (c0 t1 t2 : Point2)
    (hp : st.lastPinchDistance = some d0) (hd0 : d0 ≠ 0)
    (hc : st.lastTwoFingerCenter = some c0)
    (ht : touchDist t1 t2 = d0 + 10)
    (hmid : touchMid t1 t2 = c0) :
    (Scene3D.onTouchMove2 st t1 t2).camera = st.camera := by
  unfold Scene3D.onTouchMove2
  rw [hp, hc]
  simp only [ht, hmid, add_sub_cancel_left, sub_self, zero_mul, add_zero,
    Real.sqrt_zero, if_neg hd0]
  rw [if_neg (show ¬(0.5 : ℝ) < |(10 : ℝ) * 0.01| by
      rw [abs_of_nonneg (by norm_num)]; norm_num),
    if_neg (show ¬((5 : ℝ) < 0 ∧ |(10 : ℝ)| * 0.5 < 0) by norm_num)]

/-- Lemma: the two-finger frame with constant midpoint and a pinch change
whose scaled delta exceeds the 0.5 gate applies exactly one zoom delta
and no rotate. -/
lemma touchMoveZoomOnly (st : Scene3DState) (d0 c : ℝ) (c0 t1 t2 : Point2)
    (hp : st.lastPinchDistance = some d0) (hd0 : d0 ≠ 0)
    (hc : st.lastTwoFingerCenter = some c0)
    (ht : touchDist t1 t2 = d0 + c)
    (hmid : touchMid t1 t2 = c0)
    (hgate : 0.5 < |c * 0.01|) :
    (Scene3D.onTouchMove2 st t1 t2).camera
      = Scene3D.zoomCameraC st.camera (c * 0.01) := by
  unfold Scene3D.onTouchMove2
  rw [hp, hc]
  simp only [ht, hmid, add_sub_cancel_left, sub_self, zero_mul, add_zero,
    Real.sqrt_zero, if_neg hd0]
  rw [if_pos hgate,
    if_neg (show ¬((5 : ℝ) < 0 ∧ |(c : ℝ)| * 0.5 < 0) by norm_num)]
  rfl

/-- Lemma: looking at the origin from `(0, 0, 5)` gives identity Euler. -/
lemma lookAt005 : lookAtEuler ⟨0, 0, 5⟩ ⟨0, 0, 0⟩ = ⟨0, 0, 0⟩ :=
  lookAtEuler_pos_z (by norm_num)

/-- Lemma: a zoom delta in `[0, 4]` from the baseline camera at
`(0, 0, 5)` looking at the origin moves it to `(0, 0, 5 - delta)`. -/
lemma zoomCameraC_base (δ : ℝ) (h1 : 0 ≤ δ) (h2 : δ ≤ 4) :
    (Scene3D.zoomCameraC touchBaseState.camera δ).position = ⟨0, 0, 5 - δ⟩ := by
  show (Scene3D.zoomCameraC Scene3D.initCameraState δ).position = ⟨0, 0, 5 - δ⟩
  unfold Scene3D.zoomCameraC Scene3D.initCameraState
  simp only [lookAt005, eulerDir_zero]
  have hmoved : Vec3.add ⟨0, 0, 5⟩ (Vec3.smul δ ⟨0, 0, -1⟩) = ⟨0, 0, 5 - δ⟩ := by
    unfold Vec3.add Vec3.smul
    simp only [Vec3.mk.injEq]
    refine ⟨by ring, by ring, by ring⟩
  have hlen : (Vec3.mk 0 0 (5 - δ)).length = 5 - δ := by
    unfold Vec3.length Vec3.lengthSq
    rw [show (0 : ℝ) * 0 + 0 * 0 + (5 - δ) * (5 - δ) = (5 - δ) * (5 - δ) by ring]
    exact Real.sqrt_mul_self (by linarith)
  simp only [hmoved, hlen]
  rw [if_neg (show ¬(5 - δ < Scene3D.zoomMinDistance) by
      simp only [Scene3D.zoomMinDistance]; linarith),
    if_neg (show ¬(Scene3D.zoomMaxDistance < 5 - δ) by
      simp only [Scene3D.zoomMaxDistance]; linarith)]

/-- Lemma: a positive zoom delta up to 4 visibly changes the baseline
camera, so an applied zoom is observable. -/
lemma zoomCameraC_base_ne (δ : ℝ) (h0 : 0 < δ) (h2 : δ ≤ 4) :
    Scene3D.zoomCameraC touchBaseState.camera δ ≠ touchBaseState.camera := by
  intro h
  have hp := congrArg Camera3.position h
  rw [zoomCameraC_base δ h0.le h2] at hp
  have h5 : touchBaseState.camera.position = ⟨0, 0, 5⟩ := rfl
  rw [h5] at hp
  have hz := congrArg Vec3.z hp
  simp only at hz
  linarith

/-- Claim C4 amended: with a valid two-finger baseline, (a) a frame with
constant pinch distance and midpoint movement 20 px applies exactly one
rotate delta and no zoom; (b) a frame with constant midpoint and a pinch
change of 10 units applies NO delta at all: the scaled distance delta 0.1
is below the 0.5 noise gate, so no zoom is emitted either; (c) a zoom-only
frame requires the scaled pinch change to exceed the 0.5 gate (a change
above 50 units), in which case exactly one zoom delta and no rotate is
applied. -/
theorem claim4_amended :
    (∀ (st : Scene3DState) (d0 : ℝ) (c0 t1 t2 : Point2),
        st.lastPinchDistance = some d0 → d0 ≠ 0 →
        st.lastTwoFingerCenter = some c0 →
        touchDist t1 t2 = d0 →
        Real.sqrt (((touchMid t1 t2).x - c0.x) * ((touchMid t1 t2).x - c0.x) +
            ((touchMid t1 t2).y - c0.y) * ((touchMid t1 t2).y - c0.y)) = 20 →
        (Scene3D.onTouchMove2 st t1 t2).camera
          = Scene3D.rotateCameraC st.camera ((touchMid t1 t2).x - c0.x)
              ((touchMid t1 t2).y - c0.y)) ∧
      (∀ (st : Scene3DState) (d0 : ℝ) (c0 t1 t2 : Point2),
        st.lastPinchDistance = some d0 → d0 ≠ 0 →
        st.lastTwoFingerCenter = some c0 →
        touchDist t1 t2 = d0 + 10 →
        touchMid t1 t2 = c0 →
        (Scene3D.onTouchMove2 st t1 t2).camera = st.camera) ∧
      ∀ (st : Scene3DState) (d0 c : ℝ) (c0 t1 t2 : Point2),
        st.lastPinchDistance = some d0 → d0 ≠ 0 →
        st.lastTwoFingerCenter = some c0 →
        touchDist t1 t2 = d0 + c →
        touchMid t1 t2 = c0 →
        0.5 < |c * 0.01| →
        (Scene3D.onTouchMove2 st t1 t2).camera
          = Scene3D.zoomCameraC st.camera (c * 0.01) :=
  ⟨fun st d0 c0 t1 t2 hp hd0 hc ht hmv =>
      touchMoveRotateOnly st d0 c0 t1 t2 hp hd0 hc ht hmv,
    fun st d0 c0 t1 t2 hp hd0 hc ht hmid =>
      touchMoveNeitherTen st d0 c0 t1 t2 hp hd0 hc ht hmid,
    fun st d0 c c0 t1 t2 hp hd0 hc ht hmid hgate =>
      touchMoveZoomOnly st d0 c c0 t1 t2 hp hd0 hc ht hmid hgate⟩

/-- Lemma: the distance between `(-5, 0)` and `(105, 0)` is 110. -/
lemma tDist110 : touchDist ⟨-5, 0⟩ ⟨105, 0⟩ = 110 := by
  unfold touchDist
  exact sqrtEval (by norm_num) (by norm_num)

/-- Lemma: the midpoint of `(-5, 0)` and `(105, 0)`. -/
lemma mid110 : touchMid ⟨-5, 0⟩ ⟨105, 0⟩ = ⟨50, 0⟩ := by
  unfold touchMid
  norm_num

/-- Claim C4 counterexample: with baseline pinch 100 / midpoint `(50, 0)`,
the frame `(-5, 0), (105, 0)` keeps the midpoint fixed and changes the
pinch distance by 10 units, yet the camera is left completely unchanged —
no zoom delta is produced (0.1 is below the 0.5 gate), refuting the
claim's second scenario; a produced zoom of that size would have visibly
moved the camera. -/
theorem claim4_counterexample :
    (Scene3D.onTouchMove2 touchBaseState ⟨-5, 0⟩ ⟨105, 0⟩).camera
        = touchBaseState.camera ∧
      Scene3D.zoomCameraC touchBaseState.camera 0.1 ≠ touchBaseState.camera :=
  ⟨touchMoveNeitherTen touchBaseState 100 ⟨50, 0⟩ ⟨-5, 0⟩ ⟨105, 0⟩ basePinch
      (by norm_num) baseCenter (by rw [tDist110]; norm_num) mid110,
    zoomCameraC_base_ne 0.1 (by norm_num) (by norm_num)⟩

/-- Lemma: the distance between `(0, 20)` and `(100, 20)` is 100. -/
lemma tDist100b : touchDist ⟨0, 20⟩ ⟨100, 20⟩ = 100 := by
  unfold touchDist
  exact sqrtEval (by norm_num) (by norm_num)

/-- Lemma: the midpoint of `(0, 20)` and `(100, 20)`. -/
lemma mid100b : touchMid ⟨0, 20⟩ ⟨100, 20⟩ = ⟨50, 20⟩ := by
  unfold touchMid
  norm_num

/-- Lemma: the distance between `(-50, 0)` and `(150, 0)` is 200. -/
lemma tDist200 : touchDist ⟨-50, 0⟩ ⟨150, 0⟩ = 200 := by
  unfold touchDist
  exact sqrtEval (by norm_num) (by norm_num)

/-- Lemma: the midpoint of `(-50, 0)` and `(150, 0)`. -/
lemma mid200 : touchMid ⟨-50, 0⟩ ⟨150, 0⟩ = ⟨50, 0⟩ := by
  unfold touchMid
  norm_num

/-- Claim C4 amended witness: the three scenarios instantiated from the
captured baseline: rotate-only at constant pinch with a 20 px midpoint
move, no action at a 10-unit pinch change, zoom-only at a 100-unit pinch
change. -/
theorem claim4_witness :
    (Scene3D.onTouchMove2 touchBaseState ⟨0, 20⟩ ⟨100, 20⟩).camera
        = Scene3D.rotateCameraC touchBaseState.camera
            ((touchMid ⟨0, 20⟩ ⟨100, 20⟩).x - (Point2.mk 50 0).x)
            ((touchMid ⟨0, 20⟩ ⟨100, 20⟩).y - (Point2.mk 50 0).y) ∧
      (Scene3D.onTouchMove2 touchBaseState ⟨-5, 0⟩ ⟨105, 0⟩).camera
        = touchBaseState.camera ∧
      (Scene3D.onTouchMove2 touchBaseState ⟨-50, 0⟩ ⟨150, 0⟩).camera
        = Scene3D.zoomCameraC touchBaseState.camera ((100 : ℝ) * 0.01) :=
  ⟨claim4_amended.1 touchBaseState 100 ⟨50, 0⟩ ⟨0, 20⟩ ⟨100, 20⟩ basePinch
      (by norm_num) baseCenter tDist100b
      (by simp only [mid100b]; exact sqrtEval (by norm_num) (by norm_num)),
    claim4_amended.2.1 touchBaseState 100 ⟨50, 0⟩ ⟨-5, 0⟩ ⟨105, 0⟩ basePinch
      (by norm_num) baseCenter (by rw [tDist110]; norm_num) mid110,
    claim4_amended.2.2 touchBaseState 100 100 ⟨50, 0⟩ ⟨-50, 0⟩ ⟨150, 0⟩ basePinch
      (by norm_num) baseCenter (by rw [tDist200]; norm_num) mid200
      (by rw [abs_of_nonneg (by norm_num)]; norm_num)⟩

/-- Lemma: the distance between `(0, 0)` and `(150, 0)` is 150. -/
lemma tDist150 : touchDist ⟨0, 0⟩ ⟨150, 0⟩ = 150 := by
  unfold touchDist
  exact sqrtEval (by norm_num) (by norm_num)

/-- Lemma: the midpoint of `(0, 0)` and `(150, 0)`. -/
lemma mid150 : touchMid ⟨0, 0⟩ ⟨150, 0⟩ = ⟨75, 0⟩ := by
  unfold touchMid
  norm_num

/-- Lemma: the exact boundary frame `(0,0), (150,0)` from the baseline:
the scaled distance delta is exactly 0.5 (not strictly above the gate) and
the midpoint movement 25 equals the dominance bound 25 (not strictly
above), so neither a zoom nor a rotate is applied; only the stored
baselines are updated. -/
lemma touchMoveBoundary :
    (Scene3D.onTouchMove2 touchBaseState ⟨0, 0⟩ ⟨150, 0⟩).camera
        = touchBaseState.camera ∧
      (Scene3D.onTouchMove2 touchBaseState ⟨0, 0⟩ ⟨150, 0⟩).lastPinchDistance
        = some 150 ∧
      (Scene3D.onTouchMove2 touchBaseState ⟨0, 0⟩ ⟨150, 0⟩).lastTwoFingerCenter
        = some ⟨75, 0⟩ := by
  refine ⟨?_, ?_, ?_⟩
  · unfold Scene3D.onTouchMove2
    rw [basePinch, baseCenter]
    simp only [tDist150, mid150]
    have hmv : Real.sqrt (((75 : ℝ) - 50) * (75 - 50) + ((0 : ℝ) - 0) * (0 - 0)) = 25 :=
      sqrtEval (by norm_num) (by norm_num)
    rw [if_neg (show ¬(100 : ℝ) = 0 by norm_num),
      if_neg (show ¬(0.5 : ℝ) < |((150 : ℝ) - 100) * 0.01| by
        rw [abs_of_nonneg (by norm_num)]; norm_num),
      hmv,
      if_neg (show ¬((5 : ℝ) < 25 ∧ |(150 : ℝ) - 100| * 0.5 < 25) by
        rw [abs_of_nonneg (by norm_num)]; norm_num)]
  · show some (touchDist ⟨0, 0⟩ ⟨150, 0⟩) = some 150
    rw [tDist150]
  · show some (touchMid ⟨0, 0⟩ ⟨150, 0⟩) = some ⟨75, 0⟩
    rw [mid150]

/-- Claim C5 counterexample: at the one-frame sequence touch1 constant at
`(0, 0)` and touch2 `(100, 0)` to `(150, 0)`, the code emits NO zoom: the
scaled distance delta is exactly 0.5, which is not strictly above the 0.5
noise gate, so the camera is unchanged — while an emitted zoom of that
size would have moved it. -/
theorem claim5_counterexample :
    (Scene3D.onTouchMove2 touchBaseState ⟨0, 0⟩ ⟨150, 0⟩).camera
        = touchBaseState.camera ∧
      Scene3D.zoomCameraC touchBaseState.camera 0.5 ≠ touchBaseState.camera :=
  ⟨touchMoveBoundary.1, zoomCameraC_base_ne 0.5 (by norm_num) (by norm_num)⟩

/-- Claim C5 amended: for the frame touch1 `(0,0)` to `(0,0)`, touch2
`(100,0)` to `(150,0)`: the pinch distance goes 100 to 150, the scaled
distance delta equals the 0.5 threshold exactly and both gates are
strict, so neither a zoom nor a rotate delta is emitted (the tie goes to
not-emitted on both sides); the camera is unchanged and only the stored
baselines are updated to 150 and `(75, 0)`. -/
theorem claim5_amended :
    (Scene3D.onTouchMove2 touchBaseState ⟨0, 0⟩ ⟨150, 0⟩).camera
        = touchBaseState.camera ∧
      (Scene3D.onTouchMove2 touchBaseState ⟨0, 0⟩ ⟨150, 0⟩).lastPinchDistance
        = some 150 ∧
      (Scene3D.onTouchMove2 touchBaseState ⟨0, 0⟩ ⟨150, 0⟩).lastTwoFingerCenter
        = some ⟨75, 0⟩ :=
  touchMoveBoundary

end
